import Mathlib

set_option maxRecDepth 100000

/-!
Shallow embedding of `src/feature_flags.py` (enterprise feature flag system).

Modelling choices:
* Python floats are modelled as rationals (`ℚ`); every arithmetic operation the
  embedded code performs on them (division by 100, multiplication by 1/10,
  `min`, `max`, `abs`, comparisons) is exact.
* `datetime` timestamps are rationals counting seconds; `datetime.now()` is an
  explicit `now` parameter, and `(now - created_at).total_seconds()` becomes
  plain subtraction.
* Python dicts are insertion-ordered association lists, sets are lists.
* In-place mutation of flag / experiment objects becomes explicit state
  passing: each operation returns its result together with the updated state.
* Python float division raises `ZeroDivisionError` on a zero denominator; it is
  modelled with `Except` (`pyDiv`).
* `hashlib.md5(...).hexdigest()` followed by `int(_, 16)` is implemented
  bit-for-bit over the UTF-8 bytes of the input (`md5_int`).
-/

/-- Python attribute values (`Any` in the dataclass annotations); `PyVal.none`
models Python `None`, which `dict.get` returns for a missing key. -/
inductive PyVal where
  | none
  | str (s : String)
  | int (n : Int)
  | bool (b : Bool)
deriving DecidableEq

/-- Python `d.get(k)` on a dict: the stored value, or `None` when the key is
absent. -/
def dictGet (d : List (String × PyVal)) (k : String) : PyVal :=
  match d.lookup k with
  | Option.some v => v
  | Option.none => PyVal.none

/-- Assignment `d[k] = v` on a Python dict: replaces the value in place when
the key is present (keeping insertion order), otherwise appends a new entry. -/
def dictSet {α : Type} : List (String × α) → String → α → List (String × α)
  | [], k, v => [(k, v)]
  | p :: rest, k, v => if p.1 = k then (k, v) :: rest else p :: dictSet rest k v

/-! ### MD5 (RFC 1321), as used by `hashlib.md5` -/

/-- Least-significant-first byte decomposition of `n` into `k` bytes. -/
def toLEBytes : Nat → Nat → List Nat
  | 0, _ => []
  | k + 1, n => n % 256 :: toLEBytes k (n / 256)

/-- UTF-8 encoding of a single character (`str.encode()`). -/
def utf8Char (c : Char) : List Nat :=
  let n := c.toNat
  if n < 128 then [n]
  else if n < 2048 then [192 + n / 64, 128 + n % 64]
  else if n < 65536 then [224 + n / 4096, 128 + n / 64 % 64, 128 + n % 64]
  else [240 + n / 262144, 128 + n / 4096 % 64, 128 + n / 64 % 64, 128 + n % 64]

/-- UTF-8 bytes of a string. -/
def utf8Bytes (s : String) : List Nat :=
  s.data.foldr (fun c acc => utf8Char c ++ acc) []

/-- The 64 MD5 sine-derived constants `K[i]`. -/
def md5K : List Nat :=
  [0xd76aa478, 0xe8c7b756, 0x242070db, 0xc1bdceee,
   0xf57c0faf, 0x4787c62a, 0xa8304613, 0xfd469501,
   0x698098d8, 0x8b44f7af, 0xffff5bb1, 0x895cd7be,
   0x6b901122, 0xfd987193, 0xa679438e, 0x49b40821,
   0xf61e2562, 0xc040b340, 0x265e5a51, 0xe9b6c7aa,
   0xd62f105d, 0x02441453, 0xd8a1e681, 0xe7d3fbc8,
   0x21e1cde6, 0xc33707d6, 0xf4d50d87, 0x455a14ed,
   0xa9e3e905, 0xfcefa3f8, 0x676f02d9, 0x8d2a4c8a,
   0xfffa3942, 0x8771f681, 0x6d9d6122, 0xfde5380c,
   0xa4beea44, 0x4bdecfa9, 0xf6bb4b60, 0xbebfbc70,
   0x289b7ec6, 0xeaa127fa, 0xd4ef3085, 0x04881d05,
   0xd9d4d039, 0xe6db99e5, 0x1fa27cf8, 0xc4ac5665,
   0xf4292244, 0x432aff97, 0xab9423a7, 0xfc93a039,
   0x655b59c3, 0x8f0ccc92, 0xffeff47d, 0x85845dd1,
   0x6fa87e4f, 0xfe2ce6e0, 0xa3014314, 0x4e0811a1,
   0xf7537e82, 0xbd3af235, 0x2ad7d2bb, 0xeb86d391]

/-- The 64 MD5 per-round left-rotation amounts `s[i]`. -/
def md5S : List Nat :=
  [7, 12, 17, 22, 7, 12, 17, 22, 7, 12, 17, 22, 7, 12, 17, 22,
   5, 9, 14, 20, 5, 9, 14, 20, 5, 9, 14, 20, 5, 9, 14, 20,
   4, 11, 16, 23, 4, 11, 16, 23, 4, 11, 16, 23, 4, 11, 16, 23,
   6, 10, 15, 21, 6, 10, 15, 21, 6, 10, 15, 21, 6, 10, 15, 21]

/-- MD5 round function (bitwise complement written as xor with `2^32 - 1`). -/
def md5F (i b c d : Nat) : Nat :=
  if i < 16 then (b &&& c) ||| ((b ^^^ 0xffffffff) &&& d)
  else if i < 32 then (d &&& b) ||| ((d ^^^ 0xffffffff) &&& c)
  else if i < 48 then b ^^^ c ^^^ d
  else c ^^^ (b ||| (d ^^^ 0xffffffff))

/-- MD5 message-word index schedule `g(i)`. -/
def md5g (i : Nat) : Nat :=
  if i < 16 then i
  else if i < 32 then (5 * i + 1) % 16
  else if i < 48 then (3 * i + 5) % 16
  else (7 * i) % 16

/-- Left rotation (32-bit) of `x` (with `x < 2^32`) by `n` bits. -/
def rotl32 (x n : Nat) : Nat :=
  ((x <<< n) % 4294967296) ||| (x >>> (32 - n))

/-- The 32-bit little-endian word `M[j]` of a 64-byte chunk. -/
def md5Word (chunk : List Nat) (j : Nat) : Nat :=
  chunk.getD (4 * j) 0 + 256 * chunk.getD (4 * j + 1) 0 +
    65536 * chunk.getD (4 * j + 2) 0 + 16777216 * chunk.getD (4 * j + 3) 0

/-- Running state of the MD5 compression function. -/
structure MD5State where
  a : Nat
  b : Nat
  c : Nat
  d : Nat
deriving DecidableEq

/-- One of the 64 operations of the MD5 compression function. -/
def md5Step (chunk : List Nat) (st : MD5State) (i : Nat) : MD5State :=
  let f := (md5F i st.b st.c st.d + st.a + md5K.getD i 0 +
            md5Word chunk (md5g i)) % 4294967296
  ⟨st.d, (st.b + rotl32 f (md5S.getD i 0)) % 4294967296, st.b, st.c⟩

/-- Process one 64-byte chunk. -/
def md5Chunk (st : MD5State) (chunk : List Nat) : MD5State :=
  let w := (List.range 64).foldl (md5Step chunk) st
  ⟨(st.a + w.a) % 4294967296, (st.b + w.b) % 4294967296,
   (st.c + w.c) % 4294967296, (st.d + w.d) % 4294967296⟩

/-- MD5 padding: a `0x80` byte, zeros to 56 mod 64, then the bit length as a
64-bit little-endian integer. -/
def md5Pad (msg : List Nat) : List Nat :=
  msg ++ [128] ++ List.replicate ((55 - msg.length % 64 + 64) % 64) 0 ++
    toLEBytes 8 (msg.length * 8 % 18446744073709551616)

/-- Fold the compression function over consecutive 64-byte chunks. -/
def md5Chunks : Nat → List Nat → MD5State → MD5State
  | 0, _, st => st
  | fuel + 1, l, st => md5Chunks fuel (l.drop 64) (md5Chunk st (l.take 64))

/-- The 16-byte MD5 digest of a byte string. -/
def md5Digest (msg : List Nat) : List Nat :=
  let padded := md5Pad msg
  let st := md5Chunks (padded.length / 64) padded
    ⟨0x67452301, 0xefcdab89, 0x98badcfe, 0x10325476⟩
  toLEBytes 4 st.a ++ toLEBytes 4 st.b ++ toLEBytes 4 st.c ++ toLEBytes 4 st.d

/-- Python `int(hashlib.md5(s.encode()).hexdigest(), 16)`: the digest bytes read as a
big-endian integer (which is exactly what parsing the hex digest yields). -/
def md5_int (s : String) : Nat :=
  (md5Digest (utf8Bytes s)).foldl (fun acc b => acc * 256 + b) 0

/-! ### Data model (`FeatureFlag`, `User`) -/

/-- The `RolloutStrategy` enum. -/
inductive RolloutStrategy where
  | ALL_USERS
  | PERCENTAGE
  | TARGETED
  | GRADUAL
  | CANARY
deriving DecidableEq

/-- The `FeatureFlag` dataclass. -/
structure FeatureFlag where
  key : String
  name : String
  description : String
  enabled : Bool := false
  rollout_strategy : RolloutStrategy := RolloutStrategy.ALL_USERS
  rollout_percentage : ℚ := 0
  target_users : List String := []
  target_groups : List String := []
  target_attributes : List (String × PyVal) := []
  created_at : ℚ := 0
  updated_at : ℚ := 0
  evaluations : Nat := 0
  enabled_count : Nat := 0
deriving DecidableEq

/-- The `User` dataclass. -/
structure User where
  id : String
  email : String
  groups : List String := []
  attributes : List (String × PyVal) := []
deriving DecidableEq

/-! ### TargetingEngine -/

/-- The `TargetingEngine`; its only state is the global evaluation counter. -/
structure TargetingEngine where
  evaluations : Nat := 0
deriving DecidableEq

/-- Method `TargetingEngine._evaluate_targeted`. -/
def TargetingEngine.evaluate_targeted (flag : FeatureFlag) (user : User) : Bool :=
  if flag.target_users.contains user.id then true
  else if user.groups.any (fun group => flag.target_groups.contains group) then true
  else flag.target_attributes.any (fun p => dictGet user.attributes p.1 == p.2)

/-- Method `TargetingEngine._evaluate_percentage`. -/
def TargetingEngine.evaluate_percentage (flag : FeatureFlag) (user : User) : Bool :=
  let hash_input := flag.key ++ ":" ++ user.id
  let hash_value := md5_int hash_input
  let percentage : ℚ := ((hash_value % 100 : Nat) : ℚ) / 100
  decide (percentage < flag.rollout_percentage)

/-- Method `TargetingEngine._evaluate_gradual` (`datetime.now()` is the `now`
parameter, in seconds; `0.1` is the exact rational 1/10). -/
def TargetingEngine.evaluate_gradual (flag : FeatureFlag) (user : User) (now : ℚ) : Bool :=
  let elapsed_hours : ℚ := (now - flag.created_at) / 3600
  let target_percentage : ℚ := min 1 (elapsed_hours * (1 / 10))
  let hash_input := flag.key ++ ":" ++ user.id
  let hash_value := md5_int hash_input
  let percentage : ℚ := ((hash_value % 100 : Nat) : ℚ) / 100
  decide (percentage < target_percentage)

/-- Method `TargetingEngine._evaluate_canary`. -/
def TargetingEngine.evaluate_canary (flag : FeatureFlag) (user : User) : Bool :=
  TargetingEngine.evaluate_percentage flag user && decide (flag.rollout_percentage ≤ 5 / 100)

/-- Method `TargetingEngine.evaluate`: returns the boolean result together with the
updated engine and the updated flag (the Python code mutates both in place). -/
def TargetingEngine.evaluate (self : TargetingEngine) (flag : FeatureFlag)
    (user : User) (now : ℚ) : Bool × TargetingEngine × FeatureFlag :=
  let self' : TargetingEngine := { evaluations := self.evaluations + 1 }
  let flag' := { flag with evaluations := flag.evaluations + 1 }
  if flag'.enabled = false then (false, self', flag')
  else
    let result :=
      match flag'.rollout_strategy with
      | RolloutStrategy.ALL_USERS => true
      | RolloutStrategy.TARGETED => TargetingEngine.evaluate_targeted flag' user
      | RolloutStrategy.PERCENTAGE => TargetingEngine.evaluate_percentage flag' user
      | RolloutStrategy.GRADUAL => TargetingEngine.evaluate_gradual flag' user now
      | RolloutStrategy.CANARY => TargetingEngine.evaluate_canary flag' user
    if result then (result, self', { flag' with enabled_count := flag'.enabled_count + 1 })
    else (result, self', flag')

/-- Run `evaluate` on one flag over a sequence of `(user, now)` calls,
threading the mutated engine and flag; returns the list of results. -/
def evalList : TargetingEngine → FeatureFlag → List (User × ℚ) →
    List Bool × TargetingEngine × FeatureFlag
  | eng, flag, [] => ([], eng, flag)
  | eng, flag, (u, t) :: rest =>
    let out := TargetingEngine.evaluate eng flag u t
    let rest_out := evalList out.2.1 out.2.2 rest
    (out.1 :: rest_out.1, rest_out.2)

/-! ### FeatureFlagManager -/

/-- The `FeatureFlagManager`: a dict of flags plus a targeting engine. -/
structure FeatureFlagManager where
  flags : List (String × FeatureFlag) := []
  targeting_engine : TargetingEngine := {}
deriving DecidableEq

/-- Method `FeatureFlagManager.create_flag` (dataclass timestamp defaults become the
`now` parameter); returns the new flag and the updated manager. -/
def FeatureFlagManager.create_flag (self : FeatureFlagManager)
    (key name description : String) (now : ℚ) : FeatureFlag × FeatureFlagManager :=
  let flag : FeatureFlag :=
    { key := key, name := name, description := description,
      created_at := now, updated_at := now }
  (flag, { self with flags := dictSet self.flags key flag })

/-- The `**kwargs` of `FeatureFlagManager.update_flag`: each field of the flag
may or may not be supplied (`setattr` runs only on supplied names; names that
are not flag attributes are ignored by the `hasattr` guard and need no model). -/
structure FlagUpdate where
  key : Option String := Option.none
  name : Option String := Option.none
  description : Option String := Option.none
  enabled : Option Bool := Option.none
  rollout_strategy : Option RolloutStrategy := Option.none
  rollout_percentage : Option ℚ := Option.none
  target_users : Option (List String) := Option.none
  target_groups : Option (List String) := Option.none
  target_attributes : Option (List (String × PyVal)) := Option.none
  created_at : Option ℚ := Option.none
  updated_at : Option ℚ := Option.none
  evaluations : Option Nat := Option.none
  enabled_count : Option Nat := Option.none
deriving DecidableEq

/-- The `setattr` loop of `update_flag`: overwrite exactly the supplied fields. -/
def FlagUpdate.apply (kwargs : FlagUpdate) (flag : FeatureFlag) : FeatureFlag :=
  { key := kwargs.key.getD flag.key,
    name := kwargs.name.getD flag.name,
    description := kwargs.description.getD flag.description,
    enabled := kwargs.enabled.getD flag.enabled,
    rollout_strategy := kwargs.rollout_strategy.getD flag.rollout_strategy,
    rollout_percentage := kwargs.rollout_percentage.getD flag.rollout_percentage,
    target_users := kwargs.target_users.getD flag.target_users,
    target_groups := kwargs.target_groups.getD flag.target_groups,
    target_attributes := kwargs.target_attributes.getD flag.target_attributes,
    created_at := kwargs.created_at.getD flag.created_at,
    updated_at := kwargs.updated_at.getD flag.updated_at,
    evaluations := kwargs.evaluations.getD flag.evaluations,
    enabled_count := kwargs.enabled_count.getD flag.enabled_count }

/-- Method `FeatureFlagManager.update_flag`: `False` if the key is absent, otherwise
apply the kwargs, stamp `updated_at = now`, and return `True`. -/
def FeatureFlagManager.update_flag (self : FeatureFlagManager) (key : String)
    (kwargs : FlagUpdate) (now : ℚ) : Bool × FeatureFlagManager :=
  match self.flags.lookup key with
  | Option.none => (false, self)
  | Option.some flag =>
    let flag' := { kwargs.apply flag with updated_at := now }
    (true, { self with flags := dictSet self.flags key flag' })

/-! ### KillSwitch -/

/-- One entry of `KillSwitch.activated_switches`
(`{'flag': ..., 'reason': ..., 'timestamp': ...}`). -/
structure AuditRecord where
  flag : String
  reason : String
  timestamp : ℚ
deriving DecidableEq

/-- The `KillSwitch` controller over a manager. -/
structure KillSwitch where
  manager : FeatureFlagManager
  activated_switches : List AuditRecord := []
deriving DecidableEq

/-- Method `KillSwitch.activate`: disable the flag and append an audit record;
`False` when the flag key is unknown. -/
def KillSwitch.activate (self : KillSwitch) (flag_key reason : String)
    (now : ℚ) : Bool × KillSwitch :=
  match self.manager.flags.lookup flag_key with
  | Option.some flag =>
    (true,
     { manager :=
         { self.manager with
             flags := dictSet self.manager.flags flag_key { flag with enabled := false } },
       activated_switches :=
         self.activated_switches ++ [{ flag := flag_key, reason := reason, timestamp := now }] })
  | Option.none => (false, self)

/-- Method `KillSwitch.deactivate`: re-enable the flag; `False` when unknown. -/
def KillSwitch.deactivate (self : KillSwitch) (flag_key : String) : Bool × KillSwitch :=
  match self.manager.flags.lookup flag_key with
  | Option.some flag =>
    (true,
     { self with
         manager :=
           { self.manager with
               flags := dictSet self.manager.flags flag_key { flag with enabled := true } } })
  | Option.none => (false, self)

/-! ### ABTestingEngine -/

/-- One experiment record (the dict stored in `self.experiments`). -/
structure Experiment where
  name : String
  flag_a : String
  flag_b : String
  split : ℚ
  variant_a_count : Nat := 0
  variant_b_count : Nat := 0
  variant_a_conversions : Nat := 0
  variant_b_conversions : Nat := 0
deriving DecidableEq

/-- The `ABTestingEngine`. -/
structure ABTestingEngine where
  experiments : List (String × Experiment) := []
deriving DecidableEq

/-- Method `ABTestingEngine.create_experiment` (id is `"exp-" + len(experiments)`). -/
def ABTestingEngine.create_experiment (self : ABTestingEngine)
    (name flag_a flag_b : String) (split : ℚ) : String × ABTestingEngine :=
  let exp_id := "exp-" ++ toString self.experiments.length
  (exp_id,
   { experiments :=
       dictSet self.experiments exp_id
         { name := name, flag_a := flag_a, flag_b := flag_b, split := split } })

/-- Method `ABTestingEngine.assign_variant`: `'a'` for an unknown experiment id,
otherwise hash-bucket the user against the split and bump that variant's
assignment counter. -/
def ABTestingEngine.assign_variant (self : ABTestingEngine) (exp_id : String)
    (user : User) : String × ABTestingEngine :=
  match self.experiments.lookup exp_id with
  | Option.none => ("a", self)
  | Option.some exp =>
    let hash_input := exp_id ++ ":" ++ user.id
    let hash_value := md5_int hash_input
    let variant := if ((hash_value % 100 : Nat) : ℚ) / 100 < exp.split then "a" else "b"
    let exp' :=
      if variant = "a" then { exp with variant_a_count := exp.variant_a_count + 1 }
      else { exp with variant_b_count := exp.variant_b_count + 1 }
    (variant, { experiments := dictSet self.experiments exp_id exp' })

/-- Method `ABTestingEngine.record_conversion`: no-op for an unknown id, otherwise
re-derive the variant via `assign_variant` (which also bumps its assignment
counter) and bump that variant's conversion counter. -/
def ABTestingEngine.record_conversion (self : ABTestingEngine) (exp_id : String)
    (user : User) : ABTestingEngine :=
  match self.experiments.lookup exp_id with
  | Option.none => self
  | Option.some _ =>
    let out := self.assign_variant exp_id user
    match out.2.experiments.lookup exp_id with
    | Option.none => out.2
    | Option.some exp =>
      if out.1 = "a" then
        { experiments :=
            dictSet out.2.experiments exp_id
              { exp with variant_a_conversions := exp.variant_a_conversions + 1 } }
      else
        { experiments :=
            dictSet out.2.experiments exp_id
              { exp with variant_b_conversions := exp.variant_b_conversions + 1 } }

/-- Python float division: raises `ZeroDivisionError` on a zero denominator. -/
def pyDiv (a b : ℚ) : Except String ℚ :=
  if b = 0 then Except.error "ZeroDivisionError" else Except.ok (a / b)

/-- The record returned by `ABTestingEngine.get_results`. -/
structure ExperimentResults where
  name : String
  variant_a_users : Nat
  variant_a_conversions : Nat
  variant_a_rate : ℚ
  variant_b_users : Nat
  variant_b_conversions : Nat
  variant_b_rate : ℚ
  winner : String
  lift : ℚ
deriving DecidableEq

/-- Method `ABTestingEngine.get_results`: `{}` (here `Option.none`) for an unknown id;
the rates guard their denominators with `max(count, 1)` but the lift division
`abs(rate_a - rate_b) / max(rate_a, rate_b)` is unguarded Python float
division, hence the `Except`. -/
def ABTestingEngine.get_results (self : ABTestingEngine) (exp_id : String) :
    Except String (Option ExperimentResults) :=
  match self.experiments.lookup exp_id with
  | Option.none => Except.ok Option.none
  | Option.some exp =>
    let conv_rate_a : ℚ := (exp.variant_a_conversions : ℚ) / ((max exp.variant_a_count 1 : Nat) : ℚ)
    let conv_rate_b : ℚ := (exp.variant_b_conversions : ℚ) / ((max exp.variant_b_count 1 : Nat) : ℚ)
    match pyDiv |conv_rate_a - conv_rate_b| (max conv_rate_a conv_rate_b) with
    | Except.error e => Except.error e
    | Except.ok lift =>
      Except.ok (Option.some
        { name := exp.name,
          variant_a_users := exp.variant_a_count,
          variant_a_conversions := exp.variant_a_conversions,
          variant_a_rate := conv_rate_a,
          variant_b_users := exp.variant_b_count,
          variant_b_conversions := exp.variant_b_conversions,
          variant_b_rate := conv_rate_b,
          winner := if conv_rate_a > conv_rate_b then "a" else "b",
          lift := lift })

/-! ### Invariants -/

/-- The spec's counter invariant, per flag. -/
def flagInvariant (f : FeatureFlag) : Prop := f.enabled_count ≤ f.evaluations

/-- The counter invariant over every flag held by a manager. -/
def managerInvariant (m : FeatureFlagManager) : Prop :=
  ∀ p ∈ m.flags, flagInvariant p.2

instance (f : FeatureFlag) : Decidable (flagInvariant f) :=
  inferInstanceAs (Decidable (f.enabled_count ≤ f.evaluations))

instance (m : FeatureFlagManager) : Decidable (managerInvariant m) :=
  inferInstanceAs (Decidable (∀ p ∈ m.flags, flagInvariant p.2))

/-! ### Concrete fixtures used by witnesses and counterexamples -/

def user_c1 : User := { id := "1", email := "user1@test.com" }

def flag_c1 : FeatureFlag := { key := "k", name := "n", description := "d" }

def flag_c3 : FeatureFlag :=
  { key := "new_ui", name := "New UI Design", description := "Redesigned user interface",
    enabled := true, rollout_strategy := RolloutStrategy.ALL_USERS }

def ks_c3 : KillSwitch := { manager := { flags := [("new_ui", flag_c3)] } }

def flag_c4 : FeatureFlag := { key := "k", name := "n", description := "d" }

def mgr_c4 : FeatureFlagManager := { flags := [("k", flag_c4)] }

def kwWitness_c4 : FlagUpdate := { enabled := Option.some true }

def kwCex_c4 : FlagUpdate := { enabled_count := Option.some 1 }

def user_c5 : User := { id := "1", email := "user1@test.com" }

def flag_c5 : FeatureFlag :=
  { key := "new_ui", name := "New UI Design", description := "Redesigned user interface",
    enabled := true, rollout_strategy := RolloutStrategy.PERCENTAGE }

def user_c6 : User := { id := "u", email := "u@test.com" }

def flag_c6 : FeatureFlag :=
  { key := "prem", name := "Premium", description := "",
    enabled := true, rollout_strategy := RolloutStrategy.TARGETED,
    target_attributes := [("beta", PyVal.none)] }

def flag_c6w : FeatureFlag :=
  { key := "prem", name := "Premium", description := "",
    enabled := true, rollout_strategy := RolloutStrategy.TARGETED,
    target_users := ["u"] }

def user_c7 : User := { id := "1", email := "user1@test.com" }

def flag_c7 : FeatureFlag :=
  { key := "new_ui", name := "New UI Design", description := "",
    enabled := true, rollout_strategy := RolloutStrategy.GRADUAL, created_at := 0 }

def ab_c2 : ABTestingEngine :=
  (ABTestingEngine.create_experiment ⟨[]⟩ "New Checkout Flow" "checkout_v1" "checkout_v2" (1 / 2)).2

def user_c8 : User := { id := "u", email := "u@test.com" }

def exp_c8 : Experiment :=
  { name := "New Checkout Flow", flag_a := "checkout_v1", flag_b := "checkout_v2", split := 1 / 2 }

def ab_c8 : ABTestingEngine := ⟨[("exp-0", exp_c8)]⟩

def user_c10 : User := { id := "u", email := "u@test.com" }

/-! ### Helper lemmas about the dictionary model -/

theorem dictSet_lookup_self {α : Type} (d : List (String × α)) (k : String) (v : α) :
    (dictSet d k v).lookup k = Option.some v := by
  induction d with
  | nil => simp [dictSet, List.lookup]
  | cons p rest ih =>
    by_cases hp : p.1 = k
    · simp [dictSet, hp, List.lookup]
    · have hb : (k == p.1) = false := by
        simp only [beq_eq_false_iff_ne, ne_eq]
        exact fun he => hp he.symm
      simp only [dictSet, if_neg hp, List.lookup, hb]
      exact ih

theorem mem_dictSet {α : Type} (d : List (String × α)) (k : String) (v : α)
    (p : String × α) (hp : p ∈ dictSet d k v) : p ∈ d ∨ p = (k, v) := by
  induction d with
  | nil =>
    right
    simpa [dictSet] using hp
  | cons q rest ih =>
    by_cases hq : q.1 = k
    · simp only [dictSet, if_pos hq] at hp
      rcases List.mem_cons.mp hp with h | h
      · exact Or.inr h
      · exact Or.inl (List.mem_cons_of_mem _ h)
    · simp only [dictSet, if_neg hq] at hp
      rcases List.mem_cons.mp hp with h | h
      · exact Or.inl (h ▸ List.mem_cons_self _ _)
      · rcases ih h with h2 | h2
        · exact Or.inl (List.mem_cons_of_mem _ h2)
        · exact Or.inr h2

theorem lookup_mem {α : Type} (d : List (String × α)) (k : String) (v : α)
    (h : d.lookup k = Option.some v) : (k, v) ∈ d := by
  induction d with
  | nil => simp [List.lookup] at h
  | cons p rest ih =>
    obtain ⟨a, b⟩ := p
    by_cases hp : k = a
    · have hb : (k == a) = true := beq_iff_eq.mpr hp
      simp only [List.lookup, hb] at h
      injection h with hv
      subst hp
      subst hv
      exact List.mem_cons_self _ _
    · have hb : (k == a) = false := by simp [hp]
      simp only [List.lookup, hb] at h
      exact List.mem_cons_of_mem _ (ih h)

/-! ### Helper lemmas about `evaluate` -/

/-- Full characterization of the mutation `evaluate` performs on the flag. -/
theorem evaluate_flag_eq (s : TargetingEngine) (f : FeatureFlag) (u : User) (t : ℚ) :
    (TargetingEngine.evaluate s f u t).2.2 =
      { f with evaluations := f.evaluations + 1,
               enabled_count :=
                 f.enabled_count + if (TargetingEngine.evaluate s f u t).1 then 1 else 0 } := by
  unfold TargetingEngine.evaluate
  dsimp only
  split
  · simp
  · split <;> simp_all

/-- Evaluation returns `false` on a disabled flag. -/
theorem evaluate_false_of_disabled (s : TargetingEngine) (f : FeatureFlag)
    (u : User) (t : ℚ) (h : f.enabled = false) :
    (TargetingEngine.evaluate s f u t).1 = false := by
  unfold TargetingEngine.evaluate
  simp [h]

/-- Every result of a run of evaluations on a disabled flag is `false`. -/
theorem evalList_false (calls : List (User × ℚ)) :
    ∀ (eng : TargetingEngine) (f : FeatureFlag), f.enabled = false →
      ∀ b ∈ (evalList eng f calls).1, b = false := by
  induction calls with
  | nil => intro eng f _ b hb; simp [evalList] at hb
  | cons c rest ih =>
    intro eng f hf b hb
    obtain ⟨u, t⟩ := c
    simp only [evalList] at hb
    rcases List.mem_cons.mp hb with h | h
    · subst h
      exact evaluate_false_of_disabled eng f u t hf
    · have henabled : ((TargetingEngine.evaluate eng f u t).2.2).enabled = f.enabled := by
        rw [evaluate_flag_eq]
      exact ih _ _ (henabled.trans hf) b h


/-! ### Claim C1 -/

/-- Claim C1: a single `evaluate` call increments `flag.evaluations` by exactly
one, increments `flag.enabled_count` by exactly one iff the call returns true,
changes no other field of the flag, and returns false immediately when
`flag.enabled` is false. -/
theorem evaluate_counters_frame (s : TargetingEngine) (f : FeatureFlag)
    (u : User) (t : ℚ) :
    (TargetingEngine.evaluate s f u t).2.2 =
      { f with evaluations := f.evaluations + 1,
               enabled_count :=
                 f.enabled_count + if (TargetingEngine.evaluate s f u t).1 then 1 else 0 }
    ∧ (f.enabled = false → (TargetingEngine.evaluate s f u t).1 = false) :=
  ⟨evaluate_flag_eq s f u t, evaluate_false_of_disabled s f u t⟩

/-- Witness for C1 on a concrete disabled flag: the hypothesis of the second
conjunct is discharged at `flag_c1` and the counters behave as claimed. -/
theorem evaluate_counters_frame_witness :
    flag_c1.enabled = false
    ∧ (TargetingEngine.evaluate ⟨0⟩ flag_c1 user_c1 0).1 = false
    ∧ (TargetingEngine.evaluate ⟨0⟩ flag_c1 user_c1 0).2.2 =
        { flag_c1 with evaluations := flag_c1.evaluations + 1,
                       enabled_count := flag_c1.enabled_count +
                         if (TargetingEngine.evaluate ⟨0⟩ flag_c1 user_c1 0).1 then 1 else 0 } :=
  ⟨by decide,
   (evaluate_counters_frame ⟨0⟩ flag_c1 user_c1 0).2 (by decide),
   (evaluate_counters_frame ⟨0⟩ flag_c1 user_c1 0).1⟩

/-! ### Claim C4 (corrected) -/

/-- Counterexample to claim C4 as stated: `update_flag` is a registry
operation, and calling it with the kwarg `enabled_count=1` on a fresh flag
(whose `evaluations` is 0) breaks `enabled_count ≤ evaluations`. -/
theorem update_flag_invariant_cex :
    managerInvariant mgr_c4
    ∧ ¬ managerInvariant (FeatureFlagManager.update_flag mgr_c4 "k" kwCex_c4 0).2 := by
  decide

/-- Claim C4 as amended: `enabled_count ≤ evaluations` is preserved by every
`evaluate` call and by `create_flag`, and by `update_flag` provided the kwargs
do not assign the `evaluations` or `enabled_count` fields themselves. -/
theorem counter_invariant_preserved :
    (∀ (s : TargetingEngine) (f : FeatureFlag) (u : User) (t : ℚ),
        flagInvariant f → flagInvariant (TargetingEngine.evaluate s f u t).2.2)
    ∧ (∀ (m : FeatureFlagManager) (key name description : String) (now : ℚ),
        managerInvariant m →
          managerInvariant (m.create_flag key name description now).2)
    ∧ (∀ (m : FeatureFlagManager) (key : String) (kwargs : FlagUpdate) (now : ℚ),
        kwargs.evaluations = Option.none → kwargs.enabled_count = Option.none →
        managerInvariant m → managerInvariant (m.update_flag key kwargs now).2) := by
  refine ⟨?_, ?_, ?_⟩
  · intro s f u t h
    unfold flagInvariant at h ⊢
    rw [evaluate_flag_eq]
    dsimp only
    split <;> omega
  · intro m key name description now h p hp
    simp only [FeatureFlagManager.create_flag] at hp
    rcases mem_dictSet _ _ _ _ hp with h1 | h1
    · exact h p h1
    · subst h1
      simp [flagInvariant]
  · intro m key kwargs now he hc h p hp
    rcases hl : m.flags.lookup key with _ | flag
    · simp only [FeatureFlagManager.update_flag, hl] at hp
      exact h p hp
    · simp only [FeatureFlagManager.update_flag, hl] at hp
      rcases mem_dictSet _ _ _ _ hp with h1 | h1
      · exact h p h1
      · subst h1
        have hmem := lookup_mem _ _ _ hl
        have hflag := h _ hmem
        unfold flagInvariant at hflag ⊢
        simp [FlagUpdate.apply, he, hc]
        exact hflag

/-- Witness for the amended C4: a concrete manager satisfying the invariant
still satisfies it after an `update_flag` that only flips `enabled`. -/
theorem counter_invariant_preserved_witness :
    kwWitness_c4.evaluations = Option.none
    ∧ kwWitness_c4.enabled_count = Option.none
    ∧ managerInvariant mgr_c4
    ∧ managerInvariant (FeatureFlagManager.update_flag mgr_c4 "k" kwWitness_c4 0).2 :=
  ⟨rfl, rfl, by decide,
   counter_invariant_preserved.2.2 mgr_c4 "k" kwWitness_c4 0 rfl rfl (by decide)⟩

/-! ### Claim C3 -/

/-- Claim C3: `activate` on a registered flag key disables the flag, appends
one audit record `(flag, reason, timestamp)`, and returns true; every
subsequent `evaluate` run on the disabled flag returns false (whatever its
rollout strategy and however the counters move), until `deactivate` re-enables
it; on an unregistered key `activate` returns false and changes nothing. -/
theorem kill_switch_activate_spec (ks : KillSwitch) (key reason : String) (now : ℚ) :
    (∀ flag, ks.manager.flags.lookup key = Option.some flag →
      ((ks.activate key reason now).1 = true
        ∧ (ks.activate key reason now).2.manager.flags.lookup key =
            Option.some { flag with enabled := false }
        ∧ (ks.activate key reason now).2.activated_switches =
            ks.activated_switches ++ [{ flag := key, reason := reason, timestamp := now }]
        ∧ (∀ (eng : TargetingEngine) (calls : List (User × ℚ)),
            ∀ b ∈ (evalList eng { flag with enabled := false } calls).1, b = false)
        ∧ ((ks.activate key reason now).2.deactivate key).1 = true
        ∧ ((ks.activate key reason now).2.deactivate key).2.manager.flags.lookup key =
            Option.some { flag with enabled := true }))
    ∧ (ks.manager.flags.lookup key = Option.none →
        ks.activate key reason now = (false, ks)) := by
  constructor
  · intro flag hl
    refine ⟨?_, ?_, ?_, ?_, ?_, ?_⟩
    · simp [KillSwitch.activate, hl]
    · simp only [KillSwitch.activate, hl]
      exact dictSet_lookup_self _ _ _
    · simp [KillSwitch.activate, hl]
    · intro eng calls b hb
      exact evalList_false calls eng _ rfl b hb
    · simp only [KillSwitch.activate, hl, KillSwitch.deactivate]
      rw [dictSet_lookup_self]
    · simp only [KillSwitch.activate, hl, KillSwitch.deactivate]
      rw [dictSet_lookup_self]
      exact dictSet_lookup_self _ _ _
  · intro hl
    simp [KillSwitch.activate, hl]

/-- Witness for C3 at a concrete kill switch holding one enabled
all-users flag. -/
theorem kill_switch_activate_spec_witness :
    (ks_c3.activate "new_ui" "Performance issues detected" 7).1 = true
    ∧ (ks_c3.activate "new_ui" "Performance issues detected" 7).2.manager.flags.lookup "new_ui" =
        Option.some { flag_c3 with enabled := false }
    ∧ (ks_c3.activate "new_ui" "Performance issues detected" 7).2.activated_switches =
        ks_c3.activated_switches ++
          [{ flag := "new_ui", reason := "Performance issues detected", timestamp := 7 }]
    ∧ (∀ (eng : TargetingEngine) (calls : List (User × ℚ)),
        ∀ b ∈ (evalList eng { flag_c3 with enabled := false } calls).1, b = false)
    ∧ ((ks_c3.activate "new_ui" "Performance issues detected" 7).2.deactivate "new_ui").1 = true
    ∧ ((ks_c3.activate "new_ui" "Performance issues detected" 7).2.deactivate
        "new_ui").2.manager.flags.lookup "new_ui" =
          Option.some { flag_c3 with enabled := true } :=
  (kill_switch_activate_spec ks_c3 "new_ui" "Performance issues detected" 7).1 flag_c3 rfl

/-! ### Strategy-level helper lemmas -/

/-- On an enabled Percentage flag, `evaluate` returns the bucket comparison. -/
theorem evaluate_fst_percentage (s : TargetingEngine) (f : FeatureFlag)
    (u : User) (t : ℚ) (hen : f.enabled = true)
    (hstrat : f.rollout_strategy = RolloutStrategy.PERCENTAGE) :
    (TargetingEngine.evaluate s f u t).1 =
      decide (((md5_int (f.key ++ ":" ++ u.id) % 100 : Nat) : ℚ) / 100 <
        f.rollout_percentage) := by
  obtain ⟨key, name, description, enabled, strat, rp, tu, tg, ta, ca, ua, ev, ec⟩ := f
  dsimp at hen hstrat
  subst hen
  subst hstrat
  simp only [TargetingEngine.evaluate, TargetingEngine.evaluate_percentage]
  split <;> simp_all
  split <;> simp_all

/-- On an enabled Gradual flag, `evaluate` compares the bucket against the
time-ramped target percentage. -/
theorem evaluate_fst_gradual (s : TargetingEngine) (f : FeatureFlag)
    (u : User) (t : ℚ) (hen : f.enabled = true)
    (hstrat : f.rollout_strategy = RolloutStrategy.GRADUAL) :
    (TargetingEngine.evaluate s f u t).1 =
      decide (((md5_int (f.key ++ ":" ++ u.id) % 100 : Nat) : ℚ) / 100 <
        min 1 ((t - f.created_at) / 3600 * (1 / 10))) := by
  obtain ⟨key, name, description, enabled, strat, rp, tu, tg, ta, ca, ua, ev, ec⟩ := f
  dsimp at hen hstrat
  subst hen
  subst hstrat
  simp only [TargetingEngine.evaluate, TargetingEngine.evaluate_gradual]
  split <;> simp_all
  split <;> simp_all

/-- The hash bucket is always strictly below 1. -/
theorem bucket_lt_one (s : String) : ((md5_int s % 100 : Nat) : ℚ) / 100 < 1 := by
  have h : (md5_int s % 100 : Nat) < 100 := Nat.mod_lt _ (by norm_num)
  have h2 : ((md5_int s % 100 : Nat) : ℚ) < 100 := by exact_mod_cast h
  linarith

/-! ### Claim C5 -/

/-- Claim C5: percentage rollout is monotone in the threshold: for the same
flag and user, if `evaluate` under the Percentage strategy is true at
`rollout_percentage = p1` and `p1 < p2` (both in `[0,1]`), it is true
at `p2`. -/
theorem percentage_monotone (s : TargetingEngine) (f : FeatureFlag) (u : User)
    (t p1 p2 : ℚ) (hp : p1 < p2) (h0 : 0 ≤ p1) (h1 : p2 ≤ 1)
    (hen : f.enabled = true)
    (hstrat : f.rollout_strategy = RolloutStrategy.PERCENTAGE)
    (htrue : (TargetingEngine.evaluate s { f with rollout_percentage := p1 } u t).1 = true) :
    (TargetingEngine.evaluate s { f with rollout_percentage := p2 } u t).1 = true := by
  rw [evaluate_fst_percentage s { f with rollout_percentage := p1 } u t hen hstrat] at htrue
  rw [evaluate_fst_percentage s { f with rollout_percentage := p2 } u t hen hstrat]
  dsimp only at htrue ⊢
  simp only [decide_eq_true_eq] at htrue ⊢
  linarith

/-- Witness for C5: the hash bucket of `"new_ui:1"` is 62, so the concrete
percentage flag is on for this user at threshold 63/100 and stays on at 1. -/
theorem percentage_monotone_witness :
    (TargetingEngine.evaluate ⟨0⟩ { flag_c5 with rollout_percentage := 63 / 100 } user_c5 0).1 = true
    ∧ (TargetingEngine.evaluate ⟨0⟩ { flag_c5 with rollout_percentage := 1 } user_c5 0).1 = true := by
  have h1 : (TargetingEngine.evaluate ⟨0⟩
      { flag_c5 with rollout_percentage := 63 / 100 } user_c5 0).1 = true := by
    rw [evaluate_fst_percentage ⟨0⟩ { flag_c5 with rollout_percentage := 63 / 100 }
      user_c5 0 rfl rfl]
    have h62 : md5_int
        (({ flag_c5 with rollout_percentage := (63 : ℚ) / 100 } : FeatureFlag).key
          ++ ":" ++ user_c5.id) % 100 = 62 := by decide
    rw [h62]
    simp only [decide_eq_true_eq]
    norm_num
  exact ⟨h1, percentage_monotone ⟨0⟩ flag_c5 user_c5 0 (63 / 100) 1 (by norm_num)
    (by norm_num) (le_refl 1) rfl rfl h1⟩

/-! ### Claim C7 -/

/-- Claim C7: once at least 10 hours have elapsed since `created_at`, an
enabled Gradual flag evaluates exactly like the same flag under Percentage
with `rollout_percentage = 1`, namely true for every user. -/
theorem gradual_saturation (s s2 : TargetingEngine) (f : FeatureFlag) (u : User)
    (now : ℚ) (hen : f.enabled = true)
    (hstrat : f.rollout_strategy = RolloutStrategy.GRADUAL)
    (helapsed : 10 ≤ (now - f.created_at) / 3600) :
    (TargetingEngine.evaluate s f u now).1 = true
    ∧ (TargetingEngine.evaluate s2
        { f with rollout_strategy := RolloutStrategy.PERCENTAGE,
                 rollout_percentage := 1 } u now).1 = true
    ∧ (TargetingEngine.evaluate s f u now).1 =
        (TargetingEngine.evaluate s2
          { f with rollout_strategy := RolloutStrategy.PERCENTAGE,
                   rollout_percentage := 1 } u now).1 := by
  have hg : (TargetingEngine.evaluate s f u now).1 = true := by
    rw [evaluate_fst_gradual s f u now hen hstrat]
    have hmin : min 1 ((now - f.created_at) / 3600 * (1 / 10)) = 1 := by
      apply min_eq_left
      linarith
    rw [hmin]
    simp only [decide_eq_true_eq]
    exact bucket_lt_one _
  have hp : (TargetingEngine.evaluate s2
      { f with rollout_strategy := RolloutStrategy.PERCENTAGE,
               rollout_percentage := 1 } u now).1 = true := by
    rw [evaluate_fst_percentage s2
      { f with rollout_strategy := RolloutStrategy.PERCENTAGE, rollout_percentage := 1 }
      u now hen rfl]
    simp only [decide_eq_true_eq]
    exact bucket_lt_one _
  exact ⟨hg, hp, hg.trans hp.symm⟩

/-- Witness for C7: a Gradual flag created at time 0 evaluated at
`now = 36000` seconds (10 hours) is on for the concrete user, matching
Percentage at threshold 1. -/
theorem gradual_saturation_witness :
    (TargetingEngine.evaluate ⟨0⟩ flag_c7 user_c7 36000).1 = true
    ∧ (TargetingEngine.evaluate ⟨0⟩
        { flag_c7 with rollout_strategy := RolloutStrategy.PERCENTAGE,
                       rollout_percentage := 1 } user_c7 36000).1 = true
    ∧ (TargetingEngine.evaluate ⟨0⟩ flag_c7 user_c7 36000).1 =
        (TargetingEngine.evaluate ⟨0⟩
          { flag_c7 with rollout_strategy := RolloutStrategy.PERCENTAGE,
                         rollout_percentage := 1 } user_c7 36000).1 :=
  gradual_saturation ⟨0⟩ ⟨0⟩ flag_c7 user_c7 36000 rfl rfl (by norm_num [flag_c7])

/-! ### Claim C6 (corrected) -/

/-- On an enabled Targeted flag, `evaluate` returns the targeted check
(the counter bump does not influence the targeting fields). -/
theorem evaluate_fst_targeted (s : TargetingEngine) (f : FeatureFlag)
    (u : User) (t : ℚ) (hen : f.enabled = true)
    (hstrat : f.rollout_strategy = RolloutStrategy.TARGETED) :
    (TargetingEngine.evaluate s f u t).1 = TargetingEngine.evaluate_targeted f u := by
  unfold TargetingEngine.evaluate
  dsimp only
  rw [if_neg (by simp [hen])]
  rw [hstrat]
  dsimp only
  have hq : TargetingEngine.evaluate_targeted
      { f with rollout_strategy := RolloutStrategy.TARGETED,
               evaluations := f.evaluations + 1 } u
      = TargetingEngine.evaluate_targeted f u := rfl
  rw [hq]
  split <;> rfl

/-- Characterization of `_evaluate_targeted`: membership in `target_users`, a group
in `target_groups`, or an attribute pair matching `user.attributes.get(attr)`
(which is `None` for a missing attribute). -/
theorem evaluate_targeted_iff (f : FeatureFlag) (u : User) :
    TargetingEngine.evaluate_targeted f u = true ↔
      (u.id ∈ f.target_users
        ∨ (∃ g ∈ u.groups, g ∈ f.target_groups)
        ∨ (∃ p ∈ f.target_attributes, dictGet u.attributes p.1 = p.2)) := by
  unfold TargetingEngine.evaluate_targeted
  by_cases h1 : u.id ∈ f.target_users
  · simp [h1]
  · by_cases h2 : ∃ g ∈ u.groups, g ∈ f.target_groups
    · simp [h1, h2]
    · simp [h1, h2]

/-- Counterexample to claim C6 as stated: `flag_c6` targets the attribute
`"beta"` with expected value `None`; `user_c6` lacks the attribute entirely,
belongs to no targeted group and is not in `target_users`, so under the claim
`evaluate` must return false — but `dict.get` yields `None` for the missing
attribute, `None == None` matches, and the code returns true. -/
theorem targeted_missing_attribute_cex :
    (TargetingEngine.evaluate ⟨0⟩ flag_c6 user_c6 0).1 = true
    ∧ user_c6.attributes.lookup "beta" = Option.none
    ∧ flag_c6.target_users = []
    ∧ flag_c6.target_groups = []
    ∧ flag_c6.target_attributes = [("beta", PyVal.none)]
    ∧ flag_c6.enabled = true
    ∧ flag_c6.rollout_strategy = RolloutStrategy.TARGETED := by
  refine ⟨?_, rfl, rfl, rfl, rfl, rfl, rfl⟩
  decide

/-- Claim C6 as amended: for an enabled Targeted flag, `evaluate` is true iff
the user id is targeted, a user group is targeted, or some targeted attribute
pair `(attr, value)` satisfies `user.attributes.get(attr) == value`, where the
lookup yields `None` for a missing attribute — so a user lacking an attribute
matches exactly when the expected value is itself `None` (and never otherwise);
no error is raised in any case. -/
theorem evaluate_targeted_characterization (s : TargetingEngine) (f : FeatureFlag)
    (u : User) (t : ℚ) (hen : f.enabled = true)
    (hstrat : f.rollout_strategy = RolloutStrategy.TARGETED) :
    (TargetingEngine.evaluate s f u t).1 = true ↔
      (u.id ∈ f.target_users
        ∨ (∃ g ∈ u.groups, g ∈ f.target_groups)
        ∨ (∃ p ∈ f.target_attributes, dictGet u.attributes p.1 = p.2)) := by
  rw [evaluate_fst_targeted s f u t hen hstrat]
  exact evaluate_targeted_iff f u

/-- Witness for the amended C6: on `flag_c6` and the attribute-less `user_c6`
the characterization holds, and its right-hand side is realized through the
`None`-valued attribute pair. -/
theorem evaluate_targeted_characterization_witness :
    ((TargetingEngine.evaluate ⟨0⟩ flag_c6 user_c6 0).1 = true ↔
      (user_c6.id ∈ flag_c6.target_users
        ∨ (∃ g ∈ user_c6.groups, g ∈ flag_c6.target_groups)
        ∨ (∃ p ∈ flag_c6.target_attributes, dictGet user_c6.attributes p.1 = p.2)))
    ∧ (∃ p ∈ flag_c6.target_attributes, dictGet user_c6.attributes p.1 = p.2) :=
  ⟨evaluate_targeted_characterization ⟨0⟩ flag_c6 user_c6 0 rfl rfl,
   ⟨("beta", PyVal.none), by decide⟩⟩

/-! ### Claim C2 (code bug) -/

/-- Claim C2 evaluated on the code: a freshly created experiment has both
assignment counters at zero, and `get_results` on it does not return
`rateA = rateB = 0` with `lift = 0` — both conversion rates are 0, so the lift
computation divides `0.0` by `max(0.0, 0.0) = 0.0` and raises
`ZeroDivisionError`. -/
theorem get_results_zero_assignments_raises :
    ab_c2.experiments.lookup "exp-0" =
      Option.some { name := "New Checkout Flow", flag_a := "checkout_v1",
                    flag_b := "checkout_v2", split := 1 / 2 }
    ∧ ab_c2.get_results "exp-0" = Except.error "ZeroDivisionError" := by
  have hl : ab_c2.experiments.lookup "exp-0" =
      Option.some { name := "New Checkout Flow", flag_a := "checkout_v1",
                    flag_b := "checkout_v2", split := 1 / 2 } := rfl
  refine ⟨hl, ?_⟩
  simp only [ABTestingEngine.get_results, hl]
  norm_num [pyDiv]

/-! ### Claim C9 (code bug) -/

/-- Claim C9 evaluated on the code: `create_experiment` performs no validation
at all — called with the out-of-range split `3/2` it still creates the
experiment, storing the split unchanged (neither rejected nor clamped). -/
theorem create_experiment_no_validation :
    (ABTestingEngine.create_experiment ⟨[]⟩ "exp" "fa" "fb" (3 / 2)).1 = "exp-0"
    ∧ (ABTestingEngine.create_experiment ⟨[]⟩ "exp" "fa" "fb"
        (3 / 2)).2.experiments.lookup "exp-0" =
      Option.some { name := "exp", flag_a := "fa", flag_b := "fb", split := 3 / 2 } :=
  ⟨rfl, rfl⟩

/-! ### Claim C8 -/

/-- Behaviour of `assign_variant` on a present experiment: the returned variant is the
bucket comparison against the split, and only that variant's assignment
counter is bumped. -/
theorem assign_variant_eq (e : ABTestingEngine) (x : String) (u : User)
    (exp : Experiment) (h : e.experiments.lookup x = Option.some exp) :
    e.assign_variant x u =
      (if ((md5_int (x ++ ":" ++ u.id) % 100 : Nat) : ℚ) / 100 < exp.split
         then "a" else "b",
       { experiments :=
           dictSet e.experiments x
             (if ((md5_int (x ++ ":" ++ u.id) % 100 : Nat) : ℚ) / 100 < exp.split
                then { exp with variant_a_count := exp.variant_a_count + 1 }
                else { exp with variant_b_count := exp.variant_b_count + 1 }) }) := by
  unfold ABTestingEngine.assign_variant
  rw [h]
  dsimp only
  by_cases hc : ((md5_int (x ++ ":" ++ u.id) % 100 : Nat) : ℚ) / 100 < exp.split
  · simp only [if_pos hc]
    simp
  · simp only [if_neg hc]
    simp

/-- Claim C8: for an existing experiment, two successive `assign_variant`
calls for the same `(experiment, user)` return the same variant even though
each call mutates the assignment counters, and `record_conversion` increments
the conversion counter of exactly the variant `assign_variant` returns. -/
theorem assign_variant_consistent (e : ABTestingEngine) (x : String) (u : User)
    (exp : Experiment) (h : e.experiments.lookup x = Option.some exp) :
    ((e.assign_variant x u).2.assign_variant x u).1 = (e.assign_variant x u).1
    ∧ ∃ exp2,
        (e.record_conversion x u).experiments.lookup x = Option.some exp2
        ∧ exp2.variant_a_conversions = exp.variant_a_conversions +
            (if (e.assign_variant x u).1 = "a" then 1 else 0)
        ∧ exp2.variant_b_conversions = exp.variant_b_conversions +
            (if (e.assign_variant x u).1 = "b" then 1 else 0) := by
  have h1 := assign_variant_eq e x u exp h
  by_cases hc : ((md5_int (x ++ ":" ++ u.id) % 100 : Nat) : ℚ) / 100 < exp.split
  · simp only [if_pos hc] at h1
    have h2l : (dictSet e.experiments x
        { exp with variant_a_count := exp.variant_a_count + 1 }).lookup x =
        Option.some { exp with variant_a_count := exp.variant_a_count + 1 } :=
      dictSet_lookup_self _ _ _
    have h2 := assign_variant_eq (e.assign_variant x u).2 x u
      { exp with variant_a_count := exp.variant_a_count + 1 } (by rw [h1]; exact h2l)
    simp only [if_pos hc] at h2
    constructor
    · rw [h2, h1]
    · refine ⟨{ exp with
                  variant_a_count := exp.variant_a_count + 1,
                  variant_a_conversions := exp.variant_a_conversions + 1 }, ?_, ?_, ?_⟩
      · unfold ABTestingEngine.record_conversion
        rw [h]
        dsimp only
        rw [h1]
        dsimp only
        rw [h2l]
        dsimp only
        rw [if_pos rfl]
        exact dictSet_lookup_self _ _ _
      · rw [h1]
        dsimp only
        rw [if_pos rfl]
      · rw [h1]
        dsimp only
        rw [if_neg (by decide)]
        omega
  · simp only [if_neg hc] at h1
    have h2l : (dictSet e.experiments x
        { exp with variant_b_count := exp.variant_b_count + 1 }).lookup x =
        Option.some { exp with variant_b_count := exp.variant_b_count + 1 } :=
      dictSet_lookup_self _ _ _
    have h2 := assign_variant_eq (e.assign_variant x u).2 x u
      { exp with variant_b_count := exp.variant_b_count + 1 } (by rw [h1]; exact h2l)
    simp only [if_neg hc] at h2
    constructor
    · rw [h2, h1]
    · refine ⟨{ exp with
                  variant_b_count := exp.variant_b_count + 1,
                  variant_b_conversions := exp.variant_b_conversions + 1 }, ?_, ?_, ?_⟩
      · unfold ABTestingEngine.record_conversion
        rw [h]
        dsimp only
        rw [h1]
        dsimp only
        rw [h2l]
        dsimp only
        rw [if_neg (by decide)]
        exact dictSet_lookup_self _ _ _
      · rw [h1]
        dsimp only
        rw [if_neg (by decide)]
        omega
      · rw [h1]
        dsimp only
        rw [if_pos rfl]

/-- Witness for C8 at a concrete one-experiment engine and user. -/
theorem assign_variant_consistent_witness :
    ((ab_c8.assign_variant "exp-0" user_c8).2.assign_variant "exp-0" user_c8).1 =
      (ab_c8.assign_variant "exp-0" user_c8).1
    ∧ ∃ exp2,
        (ab_c8.record_conversion "exp-0" user_c8).experiments.lookup "exp-0" =
          Option.some exp2
        ∧ exp2.variant_a_conversions = exp_c8.variant_a_conversions +
            (if (ab_c8.assign_variant "exp-0" user_c8).1 = "a" then 1 else 0)
        ∧ exp2.variant_b_conversions = exp_c8.variant_b_conversions +
            (if (ab_c8.assign_variant "exp-0" user_c8).1 = "b" then 1 else 0) :=
  assign_variant_consistent ab_c8 "exp-0" user_c8 exp_c8 rfl

/-! ### Claim C10 -/

/-- Claim C10: for an experiment id not present in the engine,
`assign_variant` returns the variant `'a'` with the engine unchanged, and
`record_conversion` returns the engine unchanged. -/
theorem absent_experiment_noop (e : ABTestingEngine) (x : String) (u : User)
    (h : e.experiments.lookup x = Option.none) :
    e.assign_variant x u = ("a", e) ∧ e.record_conversion x u = e := by
  constructor
  · unfold ABTestingEngine.assign_variant
    rw [h]
  · unfold ABTestingEngine.record_conversion
    rw [h]

/-- Witness for C10 on the empty engine. -/
theorem absent_experiment_noop_witness :
    ABTestingEngine.assign_variant ⟨[]⟩ "exp-0" user_c10 = ("a", (⟨[]⟩ : ABTestingEngine))
    ∧ ABTestingEngine.record_conversion ⟨[]⟩ "exp-0" user_c10 = (⟨[]⟩ : ABTestingEngine) :=
  absent_experiment_noop ⟨[]⟩ "exp-0" user_c10 rfl

/-! ### MD5 known-answer validation -/

/-- Known-answer test for the MD5 embedding: the RFC 1321 digest of `"abc"` is
`900150983cd24fb0d6963f7d28e17f72`, and the empty string hashes to
`d41d8cd98f00b204e9800998ecf8427e`. -/
theorem md5_int_known_answers :
    md5_int "abc" = 0x900150983cd24fb0d6963f7d28e17f72
    ∧ md5_int "" = 0xd41d8cd98f00b204e9800998ecf8427e := by
  constructor <;> decide
